import Mathlib

/-!
Verification development for the voice-agent capital-query service.

The definitions below are a shallow embedding of the Python sources:
  server/app/transcribe_client.py  (TranscribeClient)
  server/app/voice_agent.py        (VoiceAgent)
  server/app/main.py               (FastAPI endpoints)
External collaborators (boto3 clients, Bedrock, the capital dataset,
requests) are modelled as explicit environment records whose fields give
the outcome of each external call; side effects are recorded in an
explicit trace of `Effect` values.  Machine-level details (actual byte
contents, uuid generation) are opaque: audio data is a list of bytes and
uuid-derived names are environment fields.
-/

/-- Python truthiness of an optional string: `None` and the empty string
are falsy, every other string is truthy. -/
def pyTruthy : Option String → Bool
  | none => false
  | some s => !s.isEmpty

/-- Character-list prefix test, used to build the substring test that
models the Python `in` operator on strings. -/
def isPrefixChars : List Char → List Char → Bool
  | [], _ => true
  | _ :: _, [] => false
  | p :: ps, c :: cs => p == c && isPrefixChars ps cs

/-- Character-list substring test: does `sub` occur contiguously in the
second list? -/
def containsChars (sub : List Char) : List Char → Bool
  | [] => isPrefixChars sub []
  | c :: rest => isPrefixChars sub (c :: rest) || containsChars sub rest

/-- Model of the Python expression `sub in s` on strings. -/
def strContains (s sub : String) : Bool :=
  containsChars sub.data s.data

/-- One response of `get_transcription_job`: the reported status string,
the transcript file URI (meaningful on COMPLETED), and the optional
FailureReason field (read with default on FAILED). -/
structure StatusResp where
  status : String
  transcriptUri : String
  failureReason : Option String
deriving DecidableEq

/-- Observable side effects of one transcription call, in order:
staging the local temp file, uploading to S3, starting the job, each
status poll, fetching the transcript, deleting the remote object,
deleting the local temp file, and the fixed sleeps between polls. -/
inductive Effect where
  | stageTemp (path : String)
  | uploadS3 (localPath bucket key : String)
  | startJob (jobName : String)
  | getJobStatus (jobName : String)
  | fetchResult (uri : String)
  | deleteS3 (bucket key : String)
  | deleteTemp (path : String)
  | sleep (seconds : Nat)
deriving DecidableEq

/-- Discriminator for the remote-object delete effect. -/
def Effect.isRemoteDelete : Effect → Bool
  | Effect.deleteS3 _ _ => true
  | _ => false

/-- Discriminator for the sleep effect. -/
def Effect.isSleep : Effect → Bool
  | Effect.sleep _ => true
  | _ => false

/-- Environment of one `TranscribeClient` call: configuration values and
the outcome of every external interaction.  `Except.error e` models the
call raising an exception whose `str` is `e`.  `statuses k` is the reply
to the k-th status poll.  `deleteResult` is unused in the result because
the code swallows delete failures (transcribe_client.py lines 163-166);
only the attempted delete shows up in the trace. -/
structure TranscribeEnv where
  awsAccessKeyId : Option String
  awsSecretAccessKey : Option String
  s3Bucket : String
  tempPath : String
  jobName : String
  s3FileName : String
  stageResult : Except String Unit
  uploadResult : Except String Unit
  startJobResult : Except String Unit
  statuses : Nat → Except String StatusResp
  fetchTranscript : Except String String
  deleteResult : Except String Unit

/-- The S3 key built at transcribe_client.py line 125:
`transcribe-input/` followed by the uuid-derived file name. -/
def s3KeyOf (env : TranscribeEnv) : String :=
  "transcribe-input/" ++ env.s3FileName

/-- Result dictionary of `transcribe_audio_bytes` or
`transcribe_audio_file`: the keys that appear in the returned dicts,
absent keys modelled as `none`. -/
structure TranscriptionResult where
  success : Bool
  transcription : Option String
  error : Option String
  note : Option String
deriving DecidableEq

/-- The error-message classification at transcribe_client.py lines
185-190: substring tests on the stringified exception. -/
def classifyError (e : String) : String :=
  if strContains e "NoSuchBucket" then
    "S3 bucket not found. Please create the bucket or check configuration."
  else if strContains e "AccessDenied" then
    "Access denied. Please check AWS credentials and permissions."
  else
    "Transcription failed: " ++ e

/-- The polling loop at transcribe_client.py lines 142-176, with `fuel`
bounding the number of iterations we unfold (`none` means the loop did
not reach a terminal status within `fuel` polls) and `k` the index of
the current poll.  A poll exception, a FAILED status (whose raise at
line 173 is caught at line 178) and a transcript-fetch exception all
land in the classifier at lines 185-190; the remote object is deleted
only after a successful fetch (lines 162-166). -/
def pollLoop (env : TranscribeEnv) : Nat → Nat → Option (String × List Effect)
  | 0, _ => none
  | fuel + 1, k =>
    match env.statuses k with
    | Except.error e => some (classifyError e, [Effect.getJobStatus env.jobName])
    | Except.ok resp =>
      if resp.status = "COMPLETED" then
        match env.fetchTranscript with
        | Except.error e =>
            some (classifyError e,
              [Effect.getJobStatus env.jobName, Effect.fetchResult resp.transcriptUri])
        | Except.ok t =>
            some (t,
              [Effect.getJobStatus env.jobName, Effect.fetchResult resp.transcriptUri,
               Effect.deleteS3 env.s3Bucket (s3KeyOf env)])
      else if resp.status = "FAILED" then
        some (classifyError
                ("Transcription job failed: " ++ resp.failureReason.getD "Unknown error"),
              [Effect.getJobStatus env.jobName])
      else
        match pollLoop env fuel (k + 1) with
        | none => none
        | some (r, tr) =>
            some (r, Effect.getJobStatus env.jobName :: Effect.sleep 2 :: tr)

/-- The innermost try block at transcribe_client.py lines 122-190:
upload, job submission and polling, every exception of which is caught
at line 178 and converted by the classifier into a message string that
is RETURNED as the transcription text. -/
def realTranscription (env : TranscribeEnv) (fuel : Nat) : Option (String × List Effect) :=
  match env.uploadResult with
  | Except.error e =>
      some (classifyError e, [Effect.uploadS3 env.tempPath env.s3Bucket (s3KeyOf env)])
  | Except.ok _ =>
    match env.startJobResult with
    | Except.error e =>
        some (classifyError e,
          [Effect.uploadS3 env.tempPath env.s3Bucket (s3KeyOf env),
           Effect.startJob env.jobName])
    | Except.ok _ =>
      match pollLoop env fuel 0 with
      | none => none
      | some (r, tr) =>
          some (r, Effect.uploadS3 env.tempPath env.s3Bucket (s3KeyOf env)
                     :: Effect.startJob env.jobName :: tr)

/-- The body of the try at transcribe_client.py lines 113-190: the
credentials check at lines 114-116 short-circuits with the fixed
placeholder string before any upload or job submission. -/
def innerBody (env : TranscribeEnv) (fuel : Nat) : Option (String × List Effect) :=
  if !pyTruthy env.awsAccessKeyId || !pyTruthy env.awsSecretAccessKey then
    some ("This is a test transcription. Please configure AWS credentials for real transcription.", [])
  else
    realTranscription env fuel

/-- `TranscribeClient._transcribe_audio` (transcribe_client.py lines
97-199).  A staging exception escapes the inner try, is printed at line
198 and re-raised at line 199, hence the `Except.error` result.  When
staging succeeds the inner body always returns a string, and the
`finally` at lines 192-195 removes the local temp file on every such
path. -/
def transcribeAudio (env : TranscribeEnv) (fuel : Nat) :
    Option (Except String String × List Effect) :=
  match env.stageResult with
  | Except.error e => some (Except.error e, [])
  | Except.ok _ =>
    match innerBody env fuel with
    | none => none
    | some (r, tr) =>
        some (Except.ok r,
          Effect.stageTemp env.tempPath :: (tr ++ [Effect.deleteTemp env.tempPath]))

/-- `TranscribeClient.transcribe_audio_bytes` (transcribe_client.py
lines 61-95): the sub-100-byte early rejection at lines 72-78, the
success wrapping at lines 83-87, and the except at lines 89-95 that
turns a propagated exception into a failure dict. -/
def transcribeAudioBytes (env : TranscribeEnv) (audioData : List Nat) (fuel : Nat) :
    Option (TranscriptionResult × List Effect) :=
  if audioData.length < 100 then
    some ({ success := false, transcription := none,
            error := some "Audio data too small or invalid", note := none }, [])
  else
    match transcribeAudio env fuel with
    | none => none
    | some (Except.ok t, tr) =>
        some ({ success := true, transcription := some t, error := none,
                note := some "Real-time transcription completed." }, tr)
    | some (Except.error e, tr) =>
        some ({ success := false, transcription := none, error := some e,
                note := none }, tr)

/-- Result of `BedrockClient.analyze_intent` as consumed by
`VoiceAgent.process_text_input`: the dictionary keys it reads, absent
keys modelled as `none` or `false`. -/
structure IntentResult where
  error : Option String
  is_capital_query : Bool
  query_type : Option String
  entity : Option String
deriving DecidableEq

/-- Dictionary returned by `VoiceAgent.process_text_input`: the keys of
the returned dicts, absent keys modelled as `none`. -/
structure QueryResult where
  response : String
  success : Bool
  query_type : Option String
  entity : Option String
  capital : Option String
  error : Option String
deriving DecidableEq

/-- Environment of one `process_text_input` call: the behavior of the
three external collaborators it invokes.  `Except.error e` models the
call raising an exception whose `str` is `e`; the classifier may also
report an error in-band through its `error` key. -/
structure TextEnv where
  analyzeIntent : Except String IntentResult
  findCapital : String → Except String (Option String)
  generateResponse : Option String → String → String → Except String String

/-- Modelled from the spec: `Config.UNSUPPORTED_QUERY_RESPONSE`, the
fixed unsupported-query message returned for non-capital queries
(config.py is not under src/; the spec calls it the fixed
unsupported-query message of scenario 2). -/
def UNSUPPORTED_QUERY_RESPONSE : String :=
  "I\x27m sorry, I can only answer questions about country and state capitals."

/-- The failure dict built in the two exception handlers and reused for
collaborator exceptions (voice_agent.py lines 81-86). -/
def exceptionFailure (e : String) : QueryResult :=
  { response := "I\x27m sorry, I encountered an error processing your request.",
    success := false, query_type := none, entity := none, capital := none,
    error := some e }

/-- The not-found dict at voice_agent.py lines 55-62. -/
def capitalNotFound (qt : Option String) (e : String) : QueryResult :=
  { response := "I\x27m sorry, I don\x27t have information about the capital of " ++ e ++ ".",
    success := true, query_type := qt, entity := some e, capital := none,
    error := none }

/-- The no-entity dict at voice_agent.py lines 63-70. -/
def unknownEntityResult : QueryResult :=
  { response := "I\x27m sorry, I couldn\x27t understand which country or state you\x27re asking about.",
    success := true, query_type := some "unknown", entity := none, capital := none,
    error := none }

/-- `VoiceAgent.process_text_input` (voice_agent.py lines 13-86).
Branching mirrors the source exactly: truthiness of the reported
`error`, of `is_capital_query`, of the extracted `entity`, and of the
looked-up `capital` (the last is the `if capital:` test at line 43, so
an empty-string capital takes the not-found branch); any collaborator
exception lands in the handler at lines 81-86. -/
def processTextInput (env : TextEnv) : QueryResult :=
  match env.analyzeIntent with
  | Except.error e => exceptionFailure e
  | Except.ok ir =>
    if pyTruthy ir.error then
      { response := "I\x27m sorry, I\x27m having trouble processing your request right now.",
        success := false, query_type := none, entity := none, capital := none,
        error := ir.error }
    else if ir.is_capital_query then
      match ir.entity with
      | some e =>
        if e.isEmpty then unknownEntityResult
        else
          match env.findCapital e with
          | Except.error ex => exceptionFailure ex
          | Except.ok capOpt =>
            match capOpt with
            | some c =>
              if c.isEmpty then capitalNotFound ir.query_type e
              else
                match env.generateResponse ir.query_type e c with
                | Except.error ex => exceptionFailure ex
                | Except.ok resp =>
                    { response := resp, success := true, query_type := ir.query_type,
                      entity := some e, capital := some c, error := none }
            | none => capitalNotFound ir.query_type e
      | none => unknownEntityResult
    else
      { response := UNSUPPORTED_QUERY_RESPONSE, success := true,
        query_type := some "other", entity := none, capital := none, error := none }

/-- Result of the voice pipeline: the fields of the QueryResult plus the
transcript and the optional synthesized-audio path. -/
structure VoiceQueryResult where
  response : String
  success : Bool
  transcribed_text : Option String
  query_type : Option String
  entity : Option String
  capital : Option String
  error : Option String
  audio_file_path : Option String
deriving DecidableEq

/-- Collaborator invocations of the voice coordinator, recorded so the
fail-fast short-circuit (no intent resolution, no synthesis after a
transcription failure) is observable. -/
inductive CoordEffect where
  | callTranscribe
  | callResolve (transcript : String)
  | callSynth (text : String)
deriving DecidableEq

/-- Modelled from the spec: `VoiceAgent.process_voice_with_audio_response`,
the voice coordinator called from main.py line 126 but absent from src/.
Sequencing follows spec section 4.3: submit transcription; on failure
return immediately with success false, a null transcript and the
response text copied from the transcription error path; otherwise
resolve the transcript; on pipeline failure return it as-is without
synthesis; on success synthesize best-effort. -/
def processVoiceWithAudioResponse
    (transcribeResult : TranscriptionResult)
    (resolve : String → QueryResult)
    (synthesize : String → Option String) :
    VoiceQueryResult × List CoordEffect :=
  if transcribeResult.success = false then
    ({ response := transcribeResult.error.getD "",
       success := false, transcribed_text := none, query_type := none,
       entity := none, capital := none, error := transcribeResult.error,
       audio_file_path := none },
     [CoordEffect.callTranscribe])
  else
    let t := transcribeResult.transcription.getD ""
    let q := resolve t
    if q.success = false then
      ({ response := q.response, success := false, transcribed_text := some t,
         query_type := q.query_type, entity := q.entity, capital := q.capital,
         error := q.error, audio_file_path := none },
       [CoordEffect.callTranscribe, CoordEffect.callResolve t])
    else
      ({ response := q.response, success := true, transcribed_text := some t,
         query_type := q.query_type, entity := q.entity, capital := q.capital,
         error := q.error, audio_file_path := synthesize q.response },
       [CoordEffect.callTranscribe, CoordEffect.callResolve t,
        CoordEffect.callSynth q.response])

/-- A 100-byte audio payload, at the minimum accepted size. -/
def audio100 : List Nat := List.replicate 100 0

/-- A 50-byte audio payload, below the minimum size. -/
def audio50 : List Nat := List.replicate 50 0

/-- A fully healthy concrete environment; the scenario environments
below override single fields. -/
def baseEnv : TranscribeEnv :=
  { awsAccessKeyId := some "AKIA123",
    awsSecretAccessKey := some "secretkey",
    s3Bucket := "voice-agent-audio",
    tempPath := "/tmp/tmpabc.wav",
    jobName := "transcribe_job_ab12cd34",
    s3FileName := "audio_ab12cd34.wav",
    stageResult := Except.ok (),
    uploadResult := Except.ok (),
    startJobResult := Except.ok (),
    statuses := fun _ =>
      Except.ok { status := "IN_PROGRESS", transcriptUri := "", failureReason := none },
    fetchTranscript := Except.ok "hello world",
    deleteResult := Except.ok () }

/-- Environment in which the S3 upload raises an AccessDenied
exception. -/
def envC1ce : TranscribeEnv :=
  { baseEnv with
    uploadResult :=
      Except.error "An error occurred (AccessDenied) when calling the PutObject operation" }

/-- Environment in which staging the local temp file raises. -/
def envC1w : TranscribeEnv :=
  { baseEnv with stageResult := Except.error "disk full" }

/-- Result of a run of `envC1w`. -/
def rsC1w : TranscriptionResult :=
  { success := false, transcription := none, error := some "disk full", note := none }

/-- Environment in which the transcription job reaches FAILED with an
AccessDenied failure reason. -/
def envC2ce : TranscribeEnv :=
  { baseEnv with
    statuses := fun _ =>
      Except.ok { status := "FAILED", transcriptUri := "",
                  failureReason := some "AccessDenied while reading the S3 object" } }

/-- Trace of a run of `envC2ce`: the local temp file is removed but no
remote delete ever happens. -/
def trC2ce : List Effect :=
  [Effect.stageTemp "/tmp/tmpabc.wav",
   Effect.uploadS3 "/tmp/tmpabc.wav" "voice-agent-audio" "transcribe-input/audio_ab12cd34.wav",
   Effect.startJob "transcribe_job_ab12cd34",
   Effect.getJobStatus "transcribe_job_ab12cd34",
   Effect.deleteTemp "/tmp/tmpabc.wav"]

/-- Result of a run of `envC2ce`. -/
def rsC2ce : TranscriptionResult :=
  { success := true,
    transcription := some "Access denied. Please check AWS credentials and permissions.",
    error := none, note := some "Real-time transcription completed." }

/-- Environment in which the job completes on the first poll and the
transcript fetch succeeds. -/
def envC2w : TranscribeEnv :=
  { baseEnv with
    statuses := fun _ =>
      Except.ok { status := "COMPLETED",
                  transcriptUri := "https-transcript-uri", failureReason := none } }

/-- Trace of a run of `envC2w`. -/
def trC2w : List Effect :=
  [Effect.stageTemp "/tmp/tmpabc.wav",
   Effect.uploadS3 "/tmp/tmpabc.wav" "voice-agent-audio" "transcribe-input/audio_ab12cd34.wav",
   Effect.startJob "transcribe_job_ab12cd34",
   Effect.getJobStatus "transcribe_job_ab12cd34",
   Effect.fetchResult "https-transcript-uri",
   Effect.deleteS3 "voice-agent-audio" "transcribe-input/audio_ab12cd34.wav",
   Effect.deleteTemp "/tmp/tmpabc.wav"]

/-- Result of a run of `envC2w`. -/
def rsC2w : TranscriptionResult :=
  { success := true, transcription := some "hello world",
    error := none, note := some "Real-time transcription completed." }

/-- Environment with no AWS access key configured. -/
def envC7w : TranscribeEnv :=
  { baseEnv with awsAccessKeyId := none }

/-- Environment whose job needs one extra poll before completing. -/
def envC9w : TranscribeEnv :=
  { baseEnv with
    statuses := fun k =>
      if k = 0 then
        Except.ok { status := "IN_PROGRESS", transcriptUri := "", failureReason := none }
      else
        Except.ok { status := "COMPLETED",
                    transcriptUri := "https-transcript-uri", failureReason := none } }

/-- Classifier reports a capital query for an entity whose stored
capital value is the empty string. -/
def envC5ce : TextEnv :=
  { analyzeIntent := Except.ok
      { error := none, is_capital_query := true,
        query_type := some "country", entity := some "Atlantis" },
    findCapital := fun _ => Except.ok (some ""),
    generateResponse := fun _ e c =>
      Except.ok ("The capital of " ++ e ++ " is " ++ c ++ ".") }

/-- Healthy text environment for the France/Paris scenario. -/
def envC5w : TextEnv :=
  { analyzeIntent := Except.ok
      { error := none, is_capital_query := true,
        query_type := some "country", entity := some "France" },
    findCapital := fun e => if e = "France" then Except.ok (some "Paris") else Except.ok none,
    generateResponse := fun _ e c =>
      Except.ok ("The capital of " ++ e ++ " is " ++ c ++ ".") }

/-- Classifier extracts an entity that is absent from the dataset. -/
def envC6w : TextEnv :=
  { analyzeIntent := Except.ok
      { error := none, is_capital_query := true,
        query_type := some "country", entity := some "Wakanda" },
    findCapital := fun _ => Except.ok none,
    generateResponse := fun _ e c =>
      Except.ok ("The capital of " ++ e ++ " is " ++ c ++ ".") }

/-- Response generator returns the empty string on the found path. -/
def envC8ce : TextEnv :=
  { analyzeIntent := Except.ok
      { error := none, is_capital_query := true,
        query_type := some "country", entity := some "France" },
    findCapital := fun e => if e = "France" then Except.ok (some "Paris") else Except.ok none,
    generateResponse := fun _ _ _ => Except.ok "" }

/-- Classifier reports an in-band error. -/
def envC8w : TextEnv :=
  { analyzeIntent := Except.ok
      { error := some "model throttled", is_capital_query := false,
        query_type := none, entity := none },
    findCapital := fun _ => Except.ok none,
    generateResponse := fun _ _ _ => Except.ok "unused" }

/-- Entity present in the dataset with an empty-string capital value. -/
def envC10w : TextEnv :=
  { analyzeIntent := Except.ok
      { error := none, is_capital_query := true,
        query_type := some "state", entity := some "Utopia" },
    findCapital := fun _ => Except.ok (some ""),
    generateResponse := fun _ e c =>
      Except.ok ("The capital of " ++ e ++ " is " ++ c ++ ".") }

/-- A failed transcription result, as produced for a sub-100-byte
payload. -/
def tresC3w : TranscriptionResult :=
  { success := false, transcription := none,
    error := some "Audio data too small or invalid", note := none }

/-- Result of a run of `envC1ce`: the classified AccessDenied message
is returned as the transcription of a SUCCESS dict. -/
def rsC1ce : TranscriptionResult :=
  { success := true,
    transcription := some "Access denied. Please check AWS credentials and permissions.",
    error := none, note := some "Real-time transcription completed." }

/-- Number of remote-delete effects in a trace. -/
def countRemoteDeletes (tr : List Effect) : Nat :=
  (tr.filter Effect.isRemoteDelete).length

/-- The transcription field of an optional call result. -/
def resultTranscription (x : Option (TranscriptionResult × List Effect)) :
    Option (Option String) :=
  x.map fun p => p.1.transcription

/-- The COMPLETED status response used by the multi-poll scenario. -/
def respC9 : StatusResp :=
  { status := "COMPLETED", transcriptUri := "https-transcript-uri", failureReason := none }

/-- The Boolean constants are distinct, stated in the direction used to
discharge impossible branch hypotheses. -/
theorem boolTrueNeFalse : (true : Bool) ≠ false := by decide

/-- Claim C4: every audio payload shorter than 100 bytes is rejected
with the fixed error dict, with no local staging, no upload and no job
submission (the trace of external effects is empty). -/
theorem C4_small_audio_rejected (env : TranscribeEnv) (audioData : List Nat) (fuel : Nat)
    (hlen : audioData.length < 100) :
    transcribeAudioBytes env audioData fuel =
      some ({ success := false, transcription := none,
              error := some "Audio data too small or invalid", note := none }, []) := by
  simp [transcribeAudioBytes, hlen]

theorem C4_witness :
    transcribeAudioBytes baseEnv audio50 1 =
      some ({ success := false, transcription := none,
              error := some "Audio data too small or invalid", note := none }, []) :=
  C4_small_audio_rejected baseEnv audio50 1 (by decide)

/-- Claim C7: with a payload of at least 100 bytes and no transcription
credentials configured, the call stages the temp file, performs no
upload and no job submission, and returns the same fixed placeholder
string on every call as a success result. -/
theorem C7_degraded_mode (env : TranscribeEnv) (audioData : List Nat) (fuel : Nat)
    (hlen : 100 ≤ audioData.length)
    (hstage : env.stageResult = Except.ok ())
    (hcreds : pyTruthy env.awsAccessKeyId = false ∨ pyTruthy env.awsSecretAccessKey = false) :
    transcribeAudioBytes env audioData fuel =
      some ({ success := true,
              transcription := some "This is a test transcription. Please configure AWS credentials for real transcription.",
              error := none, note := some "Real-time transcription completed." },
            [Effect.stageTemp env.tempPath, Effect.deleteTemp env.tempPath]) := by
  have hlt : ¬ audioData.length < 100 := by omega
  have hb : (!pyTruthy env.awsAccessKeyId || !pyTruthy env.awsSecretAccessKey) = true := by
    rcases hcreds with h | h <;> simp [h]
  simp [transcribeAudioBytes, hlt, transcribeAudio, hstage, innerBody, hb]

theorem C7_witness :
    transcribeAudioBytes envC7w audio100 1 =
      some ({ success := true,
              transcription := some "This is a test transcription. Please configure AWS credentials for real transcription.",
              error := none, note := some "Real-time transcription completed." },
            [Effect.stageTemp "/tmp/tmpabc.wav", Effect.deleteTemp "/tmp/tmpabc.wav"]) :=
  C7_degraded_mode envC7w audio100 1 (by decide) rfl (Or.inl rfl)

/-- Claim C5 counterexample: the entity Atlantis is present in the
dataset (the lookup returns a value, the empty string), yet `resolve`
returns `capital := none`, not the dataset value, and the not-found
response — so the claim as stated fails when the stored value is
empty. -/
theorem C5_counterexample :
    envC5ce.findCapital "Atlantis" = Except.ok (some "") ∧
    processTextInput envC5ce = capitalNotFound (some "country") "Atlantis" ∧
    (processTextInput envC5ce).capital ≠ some "" := by
  refine ⟨rfl, by decide, by decide⟩

/-- Claim C5 (amended): for a classification reporting a capital query
with a non-empty extracted entity whose dataset value is non-empty, and
a response generator that returns normally, `resolve` returns success
true, the dataset capital, the classifier-reported query type and the
generated response text. -/
theorem C5_amended_found (env : TextEnv) (ir : IntentResult) (e c resp : String)
    (h1 : env.analyzeIntent = Except.ok ir)
    (h2 : pyTruthy ir.error = false)
    (h3 : ir.is_capital_query = true)
    (h4 : ir.entity = some e)
    (he : e.isEmpty = false)
    (h5 : env.findCapital e = Except.ok (some c))
    (hc : c.isEmpty = false)
    (h6 : env.generateResponse ir.query_type e c = Except.ok resp) :
    processTextInput env =
      { response := resp, success := true, query_type := ir.query_type,
        entity := some e, capital := some c, error := none } := by
  simp [processTextInput, h1, h2, h3, h4, he, h5, hc, h6]

theorem C5_witness :
    processTextInput envC5w =
      { response := "The capital of France is Paris.", success := true,
        query_type := some "country", entity := some "France",
        capital := some "Paris", error := none } :=
  C5_amended_found envC5w
    { error := none, is_capital_query := true,
      query_type := some "country", entity := some "France" }
    "France" "Paris" "The capital of France is Paris."
    rfl rfl rfl rfl rfl rfl rfl rfl

/-- Claim C6: for a capital query with a non-empty extracted entity
absent from the dataset, `resolve` returns success true, a null
capital, the classifier-reported query type, and a response text that
contains the entity name. -/
theorem C6_absent_entity (env : TextEnv) (ir : IntentResult) (e : String)
    (h1 : env.analyzeIntent = Except.ok ir)
    (h2 : pyTruthy ir.error = false)
    (h3 : ir.is_capital_query = true)
    (h4 : ir.entity = some e)
    (he : e.isEmpty = false)
    (h5 : env.findCapital e = Except.ok none) :
    processTextInput env = capitalNotFound ir.query_type e ∧
    (processTextInput env).success = true ∧
    (processTextInput env).capital = none ∧
    (processTextInput env).query_type = ir.query_type ∧
    ∃ pre post, (processTextInput env).response = pre ++ e ++ post := by
  have hmain : processTextInput env = capitalNotFound ir.query_type e := by
    simp [processTextInput, h1, h2, h3, h4, he, h5]
  refine ⟨hmain, ?_, ?_, ?_, ?_⟩
  · rw [hmain]; rfl
  · rw [hmain]; rfl
  · rw [hmain]; rfl
  · exact ⟨"I\x27m sorry, I don\x27t have information about the capital of ", ".",
      by rw [hmain]; rfl⟩

theorem C6_witness :
    processTextInput envC6w = capitalNotFound (some "country") "Wakanda" :=
  (C6_absent_entity envC6w
    { error := none, is_capital_query := true,
      query_type := some "country", entity := some "Wakanda" }
    "Wakanda" rfl rfl rfl rfl (by decide) rfl).1

/-- Claim C10: for a capital query whose non-empty extracted entity is
present in the dataset but maps to the empty string, the truthiness
test `if capital:` at voice_agent.py line 43 sends `resolve` down the
not-found branch: success true, null capital, and the not-found
response naming the entity. -/
theorem C10_empty_capital_truthiness (env : TextEnv) (ir : IntentResult) (e : String)
    (h1 : env.analyzeIntent = Except.ok ir)
    (h2 : pyTruthy ir.error = false)
    (h3 : ir.is_capital_query = true)
    (h4 : ir.entity = some e)
    (he : e.isEmpty = false)
    (h5 : env.findCapital e = Except.ok (some "")) :
    processTextInput env = capitalNotFound ir.query_type e ∧
    (processTextInput env).success = true ∧
    (processTextInput env).capital = none ∧
    ∃ pre post, (processTextInput env).response = pre ++ e ++ post := by
  have hE : ("" : String).isEmpty = true := by decide
  have hmain : processTextInput env = capitalNotFound ir.query_type e := by
    simp [processTextInput, h1, h2, h3, h4, he, h5, hE]
  refine ⟨hmain, by rw [hmain]; rfl, by rw [hmain]; rfl,
    ⟨"I\x27m sorry, I don\x27t have information about the capital of ", ".",
      by rw [hmain]; rfl⟩⟩

theorem C10_witness :
    processTextInput envC10w = capitalNotFound (some "state") "Utopia" :=
  (C10_empty_capital_truthiness envC10w
    { error := none, is_capital_query := true,
      query_type := some "state", entity := some "Utopia" }
    "Utopia" rfl rfl rfl rfl (by decide) rfl).1

/-- Claim C1 counterexample: the S3 upload raises an AccessDenied
exception, yet the call returns success true with no error field and
the classified message as the transcription — the failure is reported
with success true, contradicting the claimed
success-false/error/transcription-null conversion. -/
theorem C1_counterexample :
    envC1ce.uploadResult =
      Except.error "An error occurred (AccessDenied) when calling the PutObject operation" ∧
    transcribeAudioBytes envC1ce audio100 1 =
      some (rsC1ce,
        [Effect.stageTemp "/tmp/tmpabc.wav",
         Effect.uploadS3 "/tmp/tmpabc.wav" "voice-agent-audio"
           "transcribe-input/audio_ab12cd34.wav",
         Effect.deleteTemp "/tmp/tmpabc.wav"]) ∧
    rsC1ce.success = true ∧ rsC1ce.error = none := by
  exact ⟨rfl, by decide, rfl, rfl⟩

/-- Claim C1 (amended): no exception propagates out of
`transcribe_audio_bytes`, but only a STAGING exception is converted
into the success-false dict with the message as its error and a null
transcription; when staging succeeds, every exception raised while
uploading, submitting or polling is caught by the inner handler and the
call reports success true with a non-null transcription (the classified
message string) and a null error. -/
theorem C1_amended_exceptions (env : TranscribeEnv) (audioData : List Nat) (fuel : Nat)
    (r : TranscriptionResult) (tr : List Effect)
    (h : transcribeAudioBytes env audioData fuel = some (r, tr))
    (hlen : 100 ≤ audioData.length) :
    (∀ e, env.stageResult = Except.error e →
        r.success = false ∧ r.error = some e ∧ r.transcription = none) ∧
    (env.stageResult = Except.ok () →
        r.success = true ∧ r.error = none ∧ r.transcription ≠ none) := by
  have hlt : ¬ audioData.length < 100 := by omega
  constructor
  · intro e he
    simp [transcribeAudioBytes, hlt, transcribeAudio, he] at h
    obtain ⟨hr, -⟩ := h
    simp [← hr]
  · intro hok
    cases hib : innerBody env fuel with
    | none => simp [transcribeAudioBytes, hlt, transcribeAudio, hok, hib] at h
    | some val =>
      obtain ⟨s, tr0⟩ := val
      simp [transcribeAudioBytes, hlt, transcribeAudio, hok, hib] at h
      obtain ⟨hr, -⟩ := h
      simp [← hr]

theorem C1_witness :
    envC1w.stageResult = Except.error "disk full" ∧
    rsC1w.success = false ∧ rsC1w.error = some "disk full" ∧ rsC1w.transcription = none :=
  ⟨rfl,
    (C1_amended_exceptions envC1w audio100 1 rsC1w [] (by decide) (by decide)).1
      "disk full" rfl⟩

/-- Claim C2 counterexample: the transcription job fails with an
AccessDenied failure reason; the local temp file is removed but the
trace contains NO remote delete — the staged S3 object is not cleaned
up on the failure path, contradicting the claimed
deletion-on-every-outcome. -/
theorem C2_counterexample :
    envC2ce.statuses 0 =
      Except.ok { status := "FAILED", transcriptUri := "",
                  failureReason := some "AccessDenied while reading the S3 object" } ∧
    transcribeAudioBytes envC2ce audio100 1 = some (rsC2ce, trC2ce) ∧
    Effect.deleteTemp "/tmp/tmpabc.wav" ∈ trC2ce ∧
    countRemoteDeletes trC2ce = 0 ∧
    rsC2ce.transcription =
      some "Access denied. Please check AWS credentials and permissions." := by
  exact ⟨rfl, by decide, by decide, by decide, rfl⟩

/-- When the polling loop yields a result whose trace contains a remote
delete, that run fetched the transcript successfully and returned
exactly the fetched transcript: the remote object is deleted only on
the completed-and-fetched path (transcribe_client.py lines 162-166). -/
theorem pollLoop_remote_delete (env : TranscribeEnv) :
    ∀ fuel k r tr, pollLoop env fuel k = some (r, tr) →
      ∀ b key, Effect.deleteS3 b key ∈ tr →
        ∃ t, env.fetchTranscript = Except.ok t ∧ r = t := by
  intro fuel
  induction fuel with
  | zero => intro k r tr h; simp [pollLoop] at h
  | succ n ih =>
    intro k r tr h b key hmem
    rw [pollLoop] at h
    cases hst : env.statuses k with
    | error e =>
      simp only [hst] at h
      simp at h
      obtain ⟨h1, h2⟩ := h
      subst h2
      simp at hmem
    | ok resp =>
      simp only [hst] at h
      by_cases hco : resp.status = "COMPLETED"
      · rw [if_pos hco] at h
        cases hfe : env.fetchTranscript with
        | error e =>
          simp only [hfe] at h
          simp at h
          obtain ⟨h1, h2⟩ := h
          subst h2
          simp at hmem
        | ok t =>
          simp only [hfe] at h
          simp at h
          obtain ⟨h1, h2⟩ := h
          subst h1
          exact ⟨t, rfl, rfl⟩
      · rw [if_neg hco] at h
        by_cases hfa : resp.status = "FAILED"
        · rw [if_pos hfa] at h
          simp at h
          obtain ⟨h1, h2⟩ := h
          subst h2
          simp at hmem
        · rw [if_neg hfa] at h
          cases hrec : pollLoop env n (k + 1) with
          | none => simp only [hrec] at h; simp at h
          | some val =>
            obtain ⟨r0, tr0⟩ := val
            simp only [hrec] at h
            simp at h
            obtain ⟨h1, h2⟩ := h
            subst h1
            subst h2
            simp at hmem
            exact ih (k + 1) r0 tr0 hrec b key hmem

/-- Claim C2 (amended): on every run that stages the audio, the local
temporary file is removed regardless of outcome; the remote staged
object, however, is deleted (best-effort) only on the path where the
job completed and the transcript fetch succeeded — after a failed job,
including an AccessDenied failure, only the local artifact is
removed. -/
theorem C2_amended_cleanup (env : TranscribeEnv) (audioData : List Nat) (fuel : Nat)
    (r : TranscriptionResult) (tr : List Effect)
    (h : transcribeAudioBytes env audioData fuel = some (r, tr))
    (hlen : 100 ≤ audioData.length)
    (hstage : env.stageResult = Except.ok ()) :
    Effect.deleteTemp env.tempPath ∈ tr ∧
    ∀ b key, Effect.deleteS3 b key ∈ tr →
      ∃ t, env.fetchTranscript = Except.ok t ∧ r.transcription = some t := by
  have hlt : ¬ audioData.length < 100 := by omega
  cases hib : innerBody env fuel with
  | none => simp [transcribeAudioBytes, hlt, transcribeAudio, hstage, hib] at h
  | some val =>
    obtain ⟨s, tr0⟩ := val
    simp [transcribeAudioBytes, hlt, transcribeAudio, hstage, hib] at h
    obtain ⟨hr, htr⟩ := h
    subst htr
    constructor
    · simp
    · intro b key hmem
      simp at hmem
      rw [innerBody] at hib
      by_cases hc : (!pyTruthy env.awsAccessKeyId || !pyTruthy env.awsSecretAccessKey) = true
      · rw [if_pos hc] at hib
        simp at hib
        obtain ⟨h1, htr0⟩ := hib
        subst htr0
        simp at hmem
      · rw [if_neg hc] at hib
        rw [realTranscription] at hib
        cases hup : env.uploadResult with
        | error e =>
          simp only [hup] at hib
          simp at hib
          obtain ⟨h1, htr0⟩ := hib
          subst htr0
          simp at hmem
        | ok u =>
          simp only [hup] at hib
          cases hstart : env.startJobResult with
          | error e =>
            simp only [hstart] at hib
            simp at hib
            obtain ⟨h1, htr0⟩ := hib
            subst htr0
            simp at hmem
          | ok u2 =>
            simp only [hstart] at hib
            cases hpl : pollLoop env fuel 0 with
            | none => simp only [hpl] at hib; simp at hib
            | some valp =>
              obtain ⟨rp, trp⟩ := valp
              simp only [hpl] at hib
              simp at hib
              obtain ⟨hs, htr0⟩ := hib
              subst htr0
              subst hs
              simp at hmem
              obtain ⟨t, hft, hrt⟩ := pollLoop_remote_delete env fuel 0 rp trp hpl b key hmem
              subst hrt
              refine ⟨rp, hft, ?_⟩
              rw [← hr]

theorem C2_witness :
    Effect.deleteTemp "/tmp/tmpabc.wav" ∈ trC2w :=
  (C2_amended_cleanup envC2w audio100 1 rsC2w trC2w (by decide) (by decide) rfl).1

/-- Claim C3: the voice pipeline invokes transcription first; a failed
transcription returns immediately with success false, a null
transcript, and the response text copied from the transcription error,
and the recorded collaborator calls show neither intent resolution nor
synthesis ran; a successful transcription passes the transcript to the
intent-resolution pipeline. -/
theorem C3_voice_sequencing (tres : TranscriptionResult)
    (resolve : String → QueryResult) (synthesize : String → Option String) :
    ((processVoiceWithAudioResponse tres resolve synthesize).2.head? =
        some CoordEffect.callTranscribe) ∧
    (tres.success = false →
      processVoiceWithAudioResponse tres resolve synthesize =
        ({ response := tres.error.getD "", success := false, transcribed_text := none,
           query_type := none, entity := none, capital := none, error := tres.error,
           audio_file_path := none }, [CoordEffect.callTranscribe])) ∧
    (tres.success = true →
      CoordEffect.callResolve (tres.transcription.getD "") ∈
        (processVoiceWithAudioResponse tres resolve synthesize).2) := by
  cases hs : tres.success with
  | false =>
    refine ⟨?_, fun _ => ?_, fun htrue => absurd htrue Bool.false_ne_true⟩
    · simp [processVoiceWithAudioResponse, hs]
    · simp [processVoiceWithAudioResponse, hs]
  | true =>
    refine ⟨?_, fun hfalse => absurd hfalse boolTrueNeFalse, fun _ => ?_⟩
    · by_cases hq : (resolve (tres.transcription.getD "")).success = false
      · simp [processVoiceWithAudioResponse, hs, hq]
      · simp [processVoiceWithAudioResponse, hs, hq]
    · by_cases hq : (resolve (tres.transcription.getD "")).success = false
      · simp [processVoiceWithAudioResponse, hs, hq]
      · simp [processVoiceWithAudioResponse, hs, hq]

theorem C3_witness :
    processVoiceWithAudioResponse tresC3w (fun _ => unknownEntityResult) (fun _ => none) =
      ({ response := "Audio data too small or invalid", success := false,
         transcribed_text := none, query_type := none, entity := none,
         capital := none, error := some "Audio data too small or invalid",
         audio_file_path := none },
       [CoordEffect.callTranscribe]) :=
  (C3_voice_sequencing tresC3w (fun _ => unknownEntityResult) (fun _ => none)).2.1 rfl

/-- Claim C8 counterexample: with a well-behaved classifier and lookup
but a response generator that returns the empty string, `resolve`
returns an empty responseText — the claimed for-every-collaborator
non-emptiness of responseText fails. -/
theorem C8_counterexample :
    processTextInput envC8ce =
      { response := "", success := true, query_type := some "country",
        entity := some "France", capital := some "Paris", error := none } ∧
    (processTextInput envC8ce).response.isEmpty = true := by
  exact ⟨by decide, by decide⟩

/-- Claim C8 (amended): every failure result (success false) carries
one of the two fixed apology strings as its responseText, never the raw
error; and responseText is non-empty on every path except the found
path, where it is exactly the external generator output — it is empty
only when the generator returned the empty string. -/
theorem C8_amended_responses (env : TextEnv) :
    ((processTextInput env).success = false →
      ((processTextInput env).response =
          "I\x27m sorry, I\x27m having trouble processing your request right now." ∨
        (processTextInput env).response =
          "I\x27m sorry, I encountered an error processing your request.")) ∧
    ((processTextInput env).response.isEmpty = true →
      ∃ ir e c, env.analyzeIntent = Except.ok ir ∧ ir.entity = some e ∧
        env.findCapital e = Except.ok (some c) ∧
        env.generateResponse ir.query_type e c =
          Except.ok ((processTextInput env).response) ∧
        (processTextInput env).success = true) := by
  cases hai : env.analyzeIntent with
  | error e0 =>
    have hres : processTextInput env = exceptionFailure e0 := by
      simp [processTextInput, hai]
    rw [hres]
    exact ⟨fun _ => Or.inr rfl, fun hE => absurd hE Bool.false_ne_true⟩
  | ok ir =>
    cases herr : pyTruthy ir.error with
    | true =>
      have hres : processTextInput env =
          { response := "I\x27m sorry, I\x27m having trouble processing your request right now.",
            success := false, query_type := none, entity := none, capital := none,
            error := ir.error } := by
        simp [processTextInput, hai, herr]
      rw [hres]
      exact ⟨fun _ => Or.inl rfl, fun hE => absurd hE Bool.false_ne_true⟩
    | false =>
      cases hcq : ir.is_capital_query with
      | false =>
        have hres : processTextInput env =
            { response := UNSUPPORTED_QUERY_RESPONSE, success := true,
              query_type := some "other", entity := none, capital := none,
              error := none } := by
          simp [processTextInput, hai, herr, hcq]
        rw [hres]
        exact ⟨fun hf => absurd hf boolTrueNeFalse, fun hE => absurd hE Bool.false_ne_true⟩
      | true =>
        cases hent : ir.entity with
        | none =>
          have hres : processTextInput env = unknownEntityResult := by
            simp [processTextInput, hai, herr, hcq, hent]
          rw [hres]
          exact ⟨fun hf => absurd hf boolTrueNeFalse, fun hE => absurd hE Bool.false_ne_true⟩
        | some e =>
          cases hee : e.isEmpty with
          | true =>
            have hres : processTextInput env = unknownEntityResult := by
              simp [processTextInput, hai, herr, hcq, hent, hee]
            rw [hres]
            exact ⟨fun hf => absurd hf boolTrueNeFalse, fun hE => absurd hE Bool.false_ne_true⟩
          | false =>
            cases hfc : env.findCapital e with
            | error ex =>
              have hres : processTextInput env = exceptionFailure ex := by
                simp [processTextInput, hai, herr, hcq, hent, hee, hfc]
              rw [hres]
              exact ⟨fun _ => Or.inr rfl, fun hE => absurd hE Bool.false_ne_true⟩
            | ok capOpt =>
              cases capOpt with
              | none =>
                have hres : processTextInput env = capitalNotFound ir.query_type e := by
                  simp [processTextInput, hai, herr, hcq, hent, hee, hfc]
                rw [hres]
                refine ⟨fun hf => absurd hf boolTrueNeFalse, fun hE => ?_⟩
                exfalso
                rw [String.isEmpty_iff] at hE
                have h2 := congrArg String.data hE
                simp [String.data_append, capitalNotFound] at h2
              | some c =>
                cases hce : c.isEmpty with
                | true =>
                  have hres : processTextInput env = capitalNotFound ir.query_type e := by
                    simp [processTextInput, hai, herr, hcq, hent, hee, hfc, hce]
                  rw [hres]
                  refine ⟨fun hf => absurd hf boolTrueNeFalse, fun hE => ?_⟩
                  exfalso
                  rw [String.isEmpty_iff] at hE
                  have h2 := congrArg String.data hE
                  simp [String.data_append, capitalNotFound] at h2
                | false =>
                  cases hg : env.generateResponse ir.query_type e c with
                  | error ex =>
                    have hres : processTextInput env = exceptionFailure ex := by
                      simp [processTextInput, hai, herr, hcq, hent, hee, hfc, hce, hg]
                    rw [hres]
                    exact ⟨fun _ => Or.inr rfl, fun hE => absurd hE Bool.false_ne_true⟩
                  | ok resp =>
                    have hres : processTextInput env =
                        { response := resp, success := true, query_type := ir.query_type,
                          entity := some e, capital := some c, error := none } := by
                      simp [processTextInput, hai, herr, hcq, hent, hee, hfc, hce, hg]
                    rw [hres]
                    exact ⟨fun hf => absurd hf boolTrueNeFalse,
                      fun _ => ⟨ir, e, c, rfl, hent, hfc, hg, rfl⟩⟩

/-- When the status sequence first reaches a terminal status at poll
index `j + n` (all earlier polls from `j` being non-terminal) and the
fuel exceeds `n`, the polling loop terminates with exactly `n` sleeps
of the fixed 2 seconds in its trace, returning the fetched transcript
on COMPLETED and the classified failure message on FAILED. -/
theorem pollLoop_terminal (env : TranscribeEnv) :
    ∀ n j fuel, n < fuel →
      (∀ k, k < n → ∃ resp, env.statuses (j + k) = Except.ok resp ∧
          resp.status ≠ "COMPLETED" ∧ resp.status ≠ "FAILED") →
      (∃ resp, env.statuses (j + n) = Except.ok resp ∧
          (resp.status = "COMPLETED" ∨ resp.status = "FAILED")) →
      ∃ r tr, pollLoop env fuel j = some (r, tr) ∧
        tr.filter Effect.isSleep = List.replicate n (Effect.sleep 2) ∧
        (∀ resp t, env.statuses (j + n) = Except.ok resp → resp.status = "COMPLETED" →
            env.fetchTranscript = Except.ok t → r = t) ∧
        (∀ resp, env.statuses (j + n) = Except.ok resp → resp.status = "FAILED" →
            r = classifyError
              ("Transcription job failed: " ++ resp.failureReason.getD "Unknown error")) := by
  intro n
  induction n with
  | zero =>
    intro j fuel hfuel hpre hterm
    obtain ⟨resp, hst, hterm2⟩ := hterm
    rw [Nat.add_zero] at hst
    cases fuel with
    | zero => omega
    | succ m =>
      have hcontr : ∀ resp2, env.statuses j = Except.ok resp2 → resp2 = resp := by
        intro resp2 h2
        rw [hst] at h2
        injection h2 with h3
        exact h3.symm
      rcases hterm2 with hco | hfa
      · cases hfe : env.fetchTranscript with
        | error e =>
          refine ⟨classifyError e,
            [Effect.getJobStatus env.jobName, Effect.fetchResult resp.transcriptUri],
            ?_, ?_, ?_, ?_⟩
          · rw [pollLoop]
            simp only [hst]
            rw [if_pos hco]
            simp only [hfe]
          · simp [Effect.isSleep]
          · intro resp2 t hst2 hco2 hfe2
            exact absurd hfe2 (by simp)
          · intro resp2 hst2 hfa2
            rw [Nat.add_zero] at hst2
            have h4 := hcontr resp2 hst2
            subst h4
            rw [hfa2] at hco
            exact absurd hco (by decide)
        | ok t =>
          refine ⟨t,
            [Effect.getJobStatus env.jobName, Effect.fetchResult resp.transcriptUri,
             Effect.deleteS3 env.s3Bucket (s3KeyOf env)], ?_, ?_, ?_, ?_⟩
          · rw [pollLoop]
            simp only [hst]
            rw [if_pos hco]
            simp only [hfe]
          · simp [Effect.isSleep]
          · intro resp2 t2 hst2 hco2 hfe2
            injection hfe2
          · intro resp2 hst2 hfa2
            rw [Nat.add_zero] at hst2
            have h4 := hcontr resp2 hst2
            subst h4
            rw [hfa2] at hco
            exact absurd hco (by decide)
      · have hnc : ¬ resp.status = "COMPLETED" := by
          rw [hfa]; decide
        refine ⟨classifyError
            ("Transcription job failed: " ++ resp.failureReason.getD "Unknown error"),
          [Effect.getJobStatus env.jobName], ?_, ?_, ?_, ?_⟩
        · rw [pollLoop]
          simp only [hst]
          rw [if_neg hnc, if_pos hfa]
        · simp [Effect.isSleep]
        · intro resp2 t hst2 hco2 hfe2
          rw [Nat.add_zero] at hst2
          have h4 := hcontr resp2 hst2
          subst h4
          rw [hco2] at hfa
          exact absurd hfa (by decide)
        · intro resp2 hst2 hfa2
          rw [Nat.add_zero] at hst2
          have h4 := hcontr resp2 hst2
          subst h4
          rfl
  | succ n ihn =>
    intro j fuel hfuel hpre hterm
    cases fuel with
    | zero => omega
    | succ m =>
      obtain ⟨resp0, hst0, hnc0, hnf0⟩ := hpre 0 (by omega)
      rw [Nat.add_zero] at hst0
      have hpre2 : ∀ k, k < n → ∃ resp, env.statuses (j + 1 + k) = Except.ok resp ∧
          resp.status ≠ "COMPLETED" ∧ resp.status ≠ "FAILED" := by
        intro k hk
        have h5 : j + 1 + k = j + (k + 1) := by omega
        rw [h5]
        exact hpre (k + 1) (by omega)
      have hterm2 : ∃ resp, env.statuses (j + 1 + n) = Except.ok resp ∧
          (resp.status = "COMPLETED" ∨ resp.status = "FAILED") := by
        have h5 : j + 1 + n = j + (n + 1) := by omega
        rw [h5]
        exact hterm
      obtain ⟨r, tr, hpl, hfil, hcoP, hfaP⟩ := ihn (j + 1) m (by omega) hpre2 hterm2
      refine ⟨r, Effect.getJobStatus env.jobName :: Effect.sleep 2 :: tr, ?_, ?_, ?_, ?_⟩
      · rw [pollLoop]
        simp only [hst0]
        rw [if_neg hnc0, if_neg hnf0]
        simp only [hpl]
      · simp [Effect.isSleep, hfil, List.replicate_succ]
      · intro resp t hst hco hfe
        have h5 : j + (n + 1) = j + 1 + n := by omega
        rw [h5] at hst
        exact hcoP resp t hst hco hfe
      · intro resp hst hfa
        have h5 : j + (n + 1) = j + 1 + n := by omega
        rw [h5] at hst
        exact hfaP resp hst hfa

/-- Claim C9: on the real transcription path, whenever the polled
status sequence reaches a terminal status at some index n (with fuel to
unfold that far), the whole call terminates with a result; the trace
contains exactly n sleep effects, each of the fixed 2 seconds; on
COMPLETED the fetched transcript is the returned transcription, and on
FAILED the classified failure message is. -/
theorem C9_polling_terminates (env : TranscribeEnv) (audioData : List Nat) (n fuel : Nat)
    (hlen : 100 ≤ audioData.length)
    (hstage : env.stageResult = Except.ok ())
    (hkey : pyTruthy env.awsAccessKeyId = true)
    (hsec : pyTruthy env.awsSecretAccessKey = true)
    (hup : env.uploadResult = Except.ok ())
    (hstart : env.startJobResult = Except.ok ())
    (hfuel : n < fuel)
    (hpre : ∀ k, k < n → ∃ resp, env.statuses k = Except.ok resp ∧
        resp.status ≠ "COMPLETED" ∧ resp.status ≠ "FAILED")
    (hterm : ∃ resp, env.statuses n = Except.ok resp ∧
        (resp.status = "COMPLETED" ∨ resp.status = "FAILED")) :
    ∃ r tr, transcribeAudioBytes env audioData fuel = some (r, tr) ∧
      r.success = true ∧
      tr.filter Effect.isSleep = List.replicate n (Effect.sleep 2) ∧
      (∀ resp t, env.statuses n = Except.ok resp → resp.status = "COMPLETED" →
          env.fetchTranscript = Except.ok t → r.transcription = some t) ∧
      (∀ resp, env.statuses n = Except.ok resp → resp.status = "FAILED" →
          r.transcription = some (classifyError
            ("Transcription job failed: " ++ resp.failureReason.getD "Unknown error"))) := by
  have hlt : ¬ audioData.length < 100 := by omega
  have hpre0 : ∀ k, k < n → ∃ resp, env.statuses (0 + k) = Except.ok resp ∧
      resp.status ≠ "COMPLETED" ∧ resp.status ≠ "FAILED" := by
    simpa using hpre
  have hterm0 : ∃ resp, env.statuses (0 + n) = Except.ok resp ∧
      (resp.status = "COMPLETED" ∨ resp.status = "FAILED") := by
    simpa using hterm
  obtain ⟨rp, trp, hpl, hfil, hcoP, hfaP⟩ :=
    pollLoop_terminal env n 0 fuel hfuel hpre0 hterm0
  have hb : (!pyTruthy env.awsAccessKeyId || !pyTruthy env.awsSecretAccessKey) = false := by
    simp [hkey, hsec]
  refine ⟨{ success := true, transcription := some rp, error := none,
            note := some "Real-time transcription completed." },
    Effect.stageTemp env.tempPath ::
      ((Effect.uploadS3 env.tempPath env.s3Bucket (s3KeyOf env)
        :: Effect.startJob env.jobName :: trp) ++ [Effect.deleteTemp env.tempPath]),
    ?_, rfl, ?_, ?_, ?_⟩
  · simp [transcribeAudioBytes, hlt, transcribeAudio, hstage, innerBody, hb,
      realTranscription, hup, hstart, hpl]
  · simp [Effect.isSleep, hfil]
  · intro resp t hst hco hfe
    have h6 := hcoP resp t (by simpa using hst) hco hfe
    rw [h6]
  · intro resp hst hfa
    have h6 := hfaP resp (by simpa using hst) hfa
    rw [h6]

theorem C9_witness :
    resultTranscription (transcribeAudioBytes envC9w audio100 2) =
      some (some "hello world") := by
  obtain ⟨r, tr, h, hsucc, hfil, hcoP, hfaP⟩ :=
    C9_polling_terminates envC9w audio100 1 2 (by decide) rfl rfl rfl rfl rfl (by omega)
      (by
        intro k hk
        have hk0 : k = 0 := by omega
        subst hk0
        exact ⟨{ status := "IN_PROGRESS", transcriptUri := "", failureReason := none },
          rfl, by decide, by decide⟩)
      ⟨respC9, rfl, Or.inl rfl⟩
  have h7 := hcoP respC9 "hello world" rfl rfl rfl
  simp [resultTranscription, h, h7]

theorem C8_witness :
    (processTextInput envC8w).success = false ∧
    ((processTextInput envC8w).response =
        "I\x27m sorry, I\x27m having trouble processing your request right now." ∨
      (processTextInput envC8w).response =
        "I\x27m sorry, I encountered an error processing your request.") :=
  ⟨by decide, (C8_amended_responses envC8w).1 (by decide)⟩
